import Mathlib

/-!
Shallow embedding of the Pylon file-transfer session core (src/src/lib.rs).

The Pylon session wraps the magic-wormhole library. External collaborators
(the wormhole transport, the url parser, the relay-hint builder and the
filesystem) are modelled as oracle fields of an environment record. Each
session operation is a function from the environment, the session state and
the call arguments to a result, the updated session state, and the trace of
external actions the call attempted, in order.
-/

/-- Abstract token for the pending client-client handshake future stored by
gen_code (the boxed Handshake future in the source). -/
structure Handshake where
  token : Nat
deriving DecidableEq, Repr

/-- Abstract token for an established wormhole connection. -/
structure Wormhole where
  token : Nat
deriving DecidableEq, Repr

/-- Abstract token for a pending inbound transfer offer
(magic-wormhole ReceiveRequest). -/
structure ReceiveRequest where
  token : Nat
deriving DecidableEq, Repr

/-- Abstract token for a parsed URL (the url crate Url value). -/
structure Url where
  token : Nat
deriving DecidableEq, Repr

/-- Abstract token for a relay hint built by RelayHint.from_urls. -/
structure RelayHint where
  token : Nat
deriving DecidableEq, Repr

/-- Abstract token for an open file handle (smol fs File). -/
structure FileHandle where
  token : Nat
deriving DecidableEq, Repr

/-- The welcome message returned by the rendezvous server; the source reads
welcome.code.0, the freshly allocated wormhole code string. -/
structure WormholeWelcome where
  code : String
deriving DecidableEq, Repr

/-- Transit abilities (magic-wormhole transit Abilities flags). -/
structure Abilities where
  direct_tcp_v1 : Bool
  relay_v1 : Bool
deriving DecidableEq, Repr

/-- The all-capabilities default used by the builder. -/
def Abilities.ALL_ABILITIES : Abilities := ⟨true, true⟩

/-- External wormhole-library error; carries its Display rendering, which is
all the Pylon core observes of it (PylonError.InternalError is transparent). -/
structure WormholeErr where
  message : String
deriving DecidableEq, Repr

/-- External transfer-phase error from the wormhole library. -/
structure TransferErr where
  message : String
deriving DecidableEq, Repr

/-- External url-crate parse error; carries its Display rendering
(PylonError.UrlParseError is transparent). -/
structure UrlParseErr where
  message : String
deriving DecidableEq, Repr

/-- External relay-hint parse error from the wormhole library. -/
structure RelayHintParseErr where
  message : String
deriving DecidableEq, Repr

/-- Builder error produced by the derived PylonBuilder; carries its Display
rendering (PylonError.BuilderError is transparent). -/
structure PylonBuilderErr where
  message : String
deriving DecidableEq, Repr

/-- Filesystem error; the source only converts it into a boxed error whose
Display rendering is this message. -/
structure IoError where
  message : String
deriving DecidableEq, Repr

/-- The custom error enum PylonError from src/src/lib.rs, one constructor per
variant. The Error variant boxes an arbitrary error; the core only ever
observes its Display rendering, so it is carried as that string. -/
inductive PylonError where
  | CodegenError (msg : String)
  | RelayHintParseError (e : RelayHintParseErr)
  | UrlParseError (e : UrlParseErr)
  | TransferError (e : TransferErr)
  | InternalError (e : WormholeErr)
  | BuilderError (e : PylonBuilderErr)
  | Error (msg : String)
deriving DecidableEq, Repr

/-- The Display rendering of PylonError, following the thiserror attributes:
format strings for CodegenError, RelayHintParseError, TransferError and Error,
and transparent forwarding for UrlParseError, InternalError and BuilderError. -/
def PylonError.display : PylonError → String
  | .CodegenError msg => "Error generating wormhole code: " ++ msg
  | .RelayHintParseError _ => "Error parsing relay server URL"
  | .UrlParseError e => e.message
  | .TransferError _ => "Error occured during transfer"
  | .InternalError e => e.message
  | .BuilderError e => e.message
  | .Error msg => "An error occured: " ++ msg

/-- A serde value produced by the serializers in this module: either a plain
string, or the externally-serialized abilities value treated as atomic. -/
inductive SerdeValue where
  | str (s : String)
  | abilitiesVal (a : Abilities)
deriving DecidableEq, Repr

/-- The manual Serialize impl for PylonError: it serializes every variant as
the single string produced by to_string, that is, its Display rendering. -/
def PylonError.serialize (e : PylonError) : SerdeValue :=
  .str e.display

/-- The Pylon session state: identity and configuration fields plus the two
optional in-flight slots (the pending handshake and the pending transfer
offer). -/
structure Pylon where
  id : String
  relay_url : String
  rendezvous_url : String
  abilities : Abilities
  handshake : Option Handshake
  transfer_request : Option ReceiveRequest
deriving Repr

/-- The wormhole app config built by the private config method: the app id and
the rendezvous url. -/
structure AppConfig where
  id : String
  rendezvous_url : String
deriving DecidableEq, Repr

/-- Builds and returns a wormhole app config (Pylon.config in the source). -/
def Pylon.config (p : Pylon) : AppConfig :=
  ⟨p.id, p.rendezvous_url⟩

/-- The serde rename_all camelCase rule on the character list of a snake_case
field name: each underscore is dropped and the character following it is
capitalized, so the first word is kept and every later word is capitalized. -/
def camelCaseChars : List Char → List Char
  | [] => []
  | '_' :: c :: cs => Char.toUpper c :: camelCaseChars cs
  | '_' :: [] => []
  | c :: cs => c :: camelCaseChars cs

/-- Renames a snake_case Rust field name to camelCase as serde rename_all
does. -/
def camelCaseRename (s : String) : String :=
  String.mk (camelCaseChars s.data)

/-- The derived Serialize impl for Pylon: the fields in declaration order with
rename_all camelCase applied to their names; the handshake and
transfer_request fields carry serde skip and are not emitted. -/
def serializePylon (p : Pylon) : List (String × SerdeValue) :=
  [(camelCaseRename "id", .str p.id),
   (camelCaseRename "relay_url", .str p.relay_url),
   (camelCaseRename "rendezvous_url", .str p.rendezvous_url),
   (camelCaseRename "abilities", .abilitiesVal p.abilities)]

/-- A Rust OsStr as observed by the source: only its optional utf-8 view. -/
structure OsStr where
  to_str : Option String
deriving DecidableEq, Repr

/-- A Rust Path as observed by the source: only its optional final
file-name component. -/
structure RustPath where
  file_name : Option OsStr
deriving DecidableEq, Repr

/-- One attempted call to an external collaborator, recorded in the order the
operations perform them. -/
inductive ExtAction where
  | fileOpen (path : RustPath)
  | fileMetadata
  | fileCreate (path : RustPath)
  | rendezvousConnectWithoutCode (code_length : Nat)
  | rendezvousConnectWithCode (code : String)
  | awaitHandshake
  | transferSend
  | transferRequest
  | transferAccept
deriving DecidableEq, Repr

/-- Whether an action talks to the network (the rendezvous, relay or peer)
rather than to the local filesystem. -/
def ExtAction.isNetwork : ExtAction → Bool
  | .fileOpen _ => false
  | .fileMetadata => false
  | .fileCreate _ => false
  | _ => true

/-- Oracle environment giving the outcome of every external collaborator call
an operation may attempt. -/
structure Env where
  connect_without_code : AppConfig → Nat → Except WormholeErr (WormholeWelcome × Handshake)
  connect_with_code : AppConfig → String → Except WormholeErr (WormholeWelcome × Wormhole)
  parse_url : String → Except UrlParseErr Url
  from_urls : Url → Except RelayHintParseErr RelayHint
  open_file : RustPath → Except IoError FileHandle
  metadata_len : FileHandle → Except IoError Nat
  create_file : RustPath → Except IoError FileHandle
  await_handshake : Handshake → Except WormholeErr Wormhole
  transfer_send_file : Wormhole → RelayHint → FileHandle → String → Nat → Abilities → Except TransferErr Unit
  transfer_request_file : Wormhole → RelayHint → Abilities → Except TransferErr (Option ReceiveRequest)
  accept_transfer : ReceiveRequest → FileHandle → Except TransferErr Unit

/-- Pylon.gen_code: if a handshake is already pending, fail with CodegenError
before any external call; otherwise contact the rendezvous server, store the
returned handshake future in the slot and return the code string. -/
def Pylon.gen_code (env : Env) (p : Pylon) (code_length : Nat) :
    Except PylonError String × Pylon × List ExtAction :=
  match p.handshake with
  | some _ =>
      (.error (.CodegenError "The current Pylon already has a pending handshake"), p, [])
  | none =>
      match env.connect_without_code p.config code_length with
      | .error e =>
          (.error (.InternalError e), p, [.rendezvousConnectWithoutCode code_length])
      | .ok (welcome, handshake) =>
          (.ok welcome.code, { p with handshake := some handshake },
            [.rendezvousConnectWithoutCode code_length])

/-- Pylon.send_file: resolve the file name, open the file and read its length,
parse the relay url and build the relay hint, then take the handshake slot;
if it was empty fail with the no-active-handshake error, otherwise await the
handshake and run the transfer. The slot is cleared by the take exactly when
control reaches it. -/
def Pylon.send_file (env : Env) (p : Pylon) (file : RustPath) :
    Except PylonError Unit × Pylon × List ExtAction :=
  match file.file_name with
  | none => (.error (.Error "could not extract file name"), p, [])
  | some os =>
    match os.to_str with
    | none => (.error (.Error "could not convert file name to str"), p, [])
    | some file_name =>
      match env.open_file file with
      | .error e => (.error (.Error e.message), p, [.fileOpen file])
      | .ok f =>
        match env.metadata_len f with
        | .error e => (.error (.Error e.message), p, [.fileOpen file, .fileMetadata])
        | .ok file_size =>
          match env.parse_url p.relay_url with
          | .error e =>
              (.error (.UrlParseError e), p, [.fileOpen file, .fileMetadata])
          | .ok u =>
            match env.from_urls u with
            | .error e =>
                (.error (.RelayHintParseError e), p, [.fileOpen file, .fileMetadata])
            | .ok hint =>
              match p.handshake with
              | none =>
                  (.error (.Error "There is currently no active handshake"),
                    { p with handshake := none }, [.fileOpen file, .fileMetadata])
              | some h =>
                match env.await_handshake h with
                | .error e =>
                    (.error (.InternalError e), { p with handshake := none },
                      [.fileOpen file, .fileMetadata, .awaitHandshake])
                | .ok wh =>
                  match env.transfer_send_file wh hint f file_name file_size p.abilities with
                  | .error e =>
                      (.error (.TransferError e), { p with handshake := none },
                        [.fileOpen file, .fileMetadata, .awaitHandshake, .transferSend])
                  | .ok _ =>
                      (.ok (), { p with handshake := none },
                        [.fileOpen file, .fileMetadata, .awaitHandshake, .transferSend])

/-- Pylon.request_file: parse the relay url and build the relay hint, connect
with the code, request the file offer, and on success assign the returned
optional offer to the transfer_request slot. No path touches the slot before
the final assignment. -/
def Pylon.request_file (env : Env) (p : Pylon) (code : String) :
    Except PylonError Unit × Pylon × List ExtAction :=
  match env.parse_url p.relay_url with
  | .error e => (.error (.UrlParseError e), p, [])
  | .ok u =>
    match env.from_urls u with
    | .error e => (.error (.RelayHintParseError e), p, [])
    | .ok hint =>
      match env.connect_with_code p.config code with
      | .error e =>
          (.error (.InternalError e), p, [.rendezvousConnectWithCode code])
      | .ok (_, wh) =>
        match env.transfer_request_file wh hint p.abilities with
        | .error e =>
            (.error (.TransferError e), p,
              [.rendezvousConnectWithCode code, .transferRequest])
        | .ok request =>
            (.ok (), { p with transfer_request := request },
              [.rendezvousConnectWithCode code, .transferRequest])

/-- Pylon.receive_file: create or truncate the destination file first, then
take the transfer_request slot; if it was empty fail with the
no-active-transfer-request error, otherwise accept the offer and stream the
file. The slot is cleared by the take exactly when control reaches it. -/
def Pylon.receive_file (env : Env) (p : Pylon) (file : RustPath) :
    Except PylonError Unit × Pylon × List ExtAction :=
  match env.create_file file with
  | .error e => (.error (.Error e.message), p, [.fileCreate file])
  | .ok f =>
    match p.transfer_request with
    | some r =>
      match env.accept_transfer r f with
      | .error e =>
          (.error (.TransferError e), { p with transfer_request := none },
            [.fileCreate file, .transferAccept])
      | .ok _ =>
          (.ok (), { p with transfer_request := none },
            [.fileCreate file, .transferAccept])
    | none =>
        (.error (.Error "There is currently no active transfer request"),
          { p with transfer_request := none }, [.fileCreate file])

/-! Concrete fixtures used by counterexamples and witnesses. -/

/-- An all-success oracle environment. -/
def envOk : Env where
  connect_without_code := fun _ n => .ok (⟨"4-tester-code"⟩, ⟨n⟩)
  connect_with_code := fun _ _ => .ok (⟨"w"⟩, ⟨1⟩)
  parse_url := fun s => .ok ⟨s.length⟩
  from_urls := fun u => .ok ⟨u.token⟩
  open_file := fun _ => .ok ⟨2⟩
  metadata_len := fun _ => .ok 42
  create_file := fun _ => .ok ⟨3⟩
  await_handshake := fun h => .ok ⟨h.token⟩
  transfer_send_file := fun _ _ _ _ _ _ => .ok ()
  transfer_request_file := fun _ _ _ => .ok (some ⟨7⟩)
  accept_transfer := fun _ _ => .ok ()

/-- The all-success environment except that url parsing fails, as for a
session constructed with a malformed relay url. -/
def envBadUrl : Env :=
  { envOk with parse_url := fun _ => .error ⟨"relative URL without a base"⟩ }

/-- An idle session: both in-flight slots empty. -/
def pylonIdle : Pylon where
  id := "pylon-app"
  relay_url := "ws://relay.example"
  rendezvous_url := "ws://rv.example"
  abilities := Abilities.ALL_ABILITIES
  handshake := none
  transfer_request := none

/-- A session with a pending handshake ticket. -/
def pylonPending : Pylon := { pylonIdle with handshake := some ⟨0⟩ }

/-- A session with a pending inbound transfer offer. -/
def pylonOffer : Pylon := { pylonIdle with transfer_request := some ⟨5⟩ }

/-- A path whose final component resolves to a utf-8 file name. -/
def pathGood : RustPath := ⟨some ⟨some "file.txt"⟩⟩

/-- A path with no final file-name component, such as a bare root path. -/
def pathNoName : RustPath := ⟨none⟩

/-! Shared lemmas about the operations. -/

/-- When the pre-handshake phase of send_file succeeds (file name resolves,
file opens, metadata reads, relay url parses, relay hint builds), control
reaches the take of the handshake slot, so the returned session state is the
input state with the handshake slot cleared, whatever the handshake and
transfer oracles answer. -/
theorem sendFile_pre_ok_state (env : Env) (p : Pylon) (fs : RustPath)
    (os : OsStr) (nm : String) (f : FileHandle) (sz : Nat) (u : Url) (hint : RelayHint)
    (hname : fs.file_name = some os) (hstr : os.to_str = some nm)
    (hopen : env.open_file fs = .ok f) (hmeta : env.metadata_len f = .ok sz)
    (hparse : env.parse_url p.relay_url = .ok u) (hhint : env.from_urls u = .ok hint) :
    (Pylon.send_file env p fs).2.1 = { p with handshake := none } := by
  cases hh : p.handshake with
  | none => simp [Pylon.send_file, hname, hstr, hopen, hmeta, hparse, hhint, hh]
  | some h =>
    cases ha : env.await_handshake h with
    | error e => simp [Pylon.send_file, hname, hstr, hopen, hmeta, hparse, hhint, hh, ha]
    | ok wh =>
      cases ht : env.transfer_send_file wh hint f nm sz p.abilities with
      | error e =>
        simp [Pylon.send_file, hname, hstr, hopen, hmeta, hparse, hhint, hh, ha, ht]
      | ok r =>
        simp [Pylon.send_file, hname, hstr, hopen, hmeta, hparse, hhint, hh, ha, ht]

/-- When the pre-handshake phase of send_file succeeds and the handshake slot
is empty, the call fails with the no-active-handshake error. -/
theorem sendFile_pre_ok_no_handshake (env : Env) (p : Pylon) (fs : RustPath)
    (os : OsStr) (nm : String) (f : FileHandle) (sz : Nat) (u : Url) (hint : RelayHint)
    (hname : fs.file_name = some os) (hstr : os.to_str = some nm)
    (hopen : env.open_file fs = .ok f) (hmeta : env.metadata_len f = .ok sz)
    (hparse : env.parse_url p.relay_url = .ok u) (hhint : env.from_urls u = .ok hint)
    (hhs : p.handshake = none) :
    (Pylon.send_file env p fs).1 = .error (.Error "There is currently no active handshake") := by
  simp only [Pylon.send_file, hname, hstr, hopen, hmeta, hparse, hhint, hhs]

/-- When creating the destination file succeeds, control reaches the take of
the transfer_request slot, so the returned session state is the input state
with the transfer_request slot cleared, whatever the accept oracle answers. -/
theorem receiveFile_create_ok_state (env : Env) (q : Pylon) (fr : RustPath)
    (g : FileHandle) (hcreate : env.create_file fr = .ok g) :
    (Pylon.receive_file env q fr).2.1 = { q with transfer_request := none } := by
  cases hq : q.transfer_request with
  | none => simp [Pylon.receive_file, hcreate, hq]
  | some r =>
    cases ha : env.accept_transfer r g with
    | error e => simp [Pylon.receive_file, hcreate, hq, ha]
    | ok x => simp [Pylon.receive_file, hcreate, hq, ha]

/-- When creating the destination file succeeds and the transfer_request slot
is empty, the call fails with the no-active-transfer-request error. -/
theorem receiveFile_create_ok_no_offer (env : Env) (q : Pylon) (fr : RustPath)
    (g : FileHandle) (hcreate : env.create_file fr = .ok g)
    (hq : q.transfer_request = none) :
    (Pylon.receive_file env q fr).1 =
      .error (.Error "There is currently no active transfer request") := by
  simp only [Pylon.receive_file, hcreate, hq]

/-! Claim theorems. -/

/-- C2: on a session whose handshake slot is already populated, gen_code
returns the CodegenError about an already pending handshake, leaves the state
unchanged and attempts no external action (in particular it never contacts the
rendezvous server); on an idle session whose rendezvous connection succeeds,
gen_code stores the returned handshake and returns the allocated code. -/
theorem genCode_exclusivity_guard (env : Env) (p : Pylon) (n : Nat) :
    (∀ h, p.handshake = some h →
      Pylon.gen_code env p n =
        (.error (.CodegenError "The current Pylon already has a pending handshake"), p, [])) ∧
    (∀ w hs, p.handshake = none → env.connect_without_code p.config n = .ok (w, hs) →
      Pylon.gen_code env p n =
        (.ok w.code, { p with handshake := some hs }, [.rendezvousConnectWithoutCode n])) := by
  constructor
  · intro h hh
    simp only [Pylon.gen_code, hh]
  · intro w hs hh hc
    simp only [Pylon.gen_code, hh, hc]

/-- Witness for C2 at concrete inputs: a pending session is rejected without
state change or external action, and an idle session gets a code. -/
theorem genCode_exclusivity_guard_witness :
    Pylon.gen_code envOk pylonPending 2 =
      (.error (.CodegenError "The current Pylon already has a pending handshake"),
        pylonPending, []) ∧
    Pylon.gen_code envOk pylonIdle 2 =
      (.ok "4-tester-code", { pylonIdle with handshake := some ⟨2⟩ },
        [.rendezvousConnectWithoutCode 2]) :=
  ⟨(genCode_exclusivity_guard envOk pylonPending 2).1 ⟨0⟩ rfl,
   (genCode_exclusivity_guard envOk pylonIdle 2).2 ⟨"4-tester-code"⟩ ⟨2⟩ rfl rfl⟩

/-- C6: on an idle session whose rendezvous connection succeeds, gen_code
stores the in-progress handshake in the handshake slot and returns the fresh
code string at once; its action trace is exactly the rendezvous connection, so
the pending handshake is never awaited. -/
theorem genCode_stores_ticket_returns_immediately (env : Env) (p : Pylon) (n : Nat)
    (w : WormholeWelcome) (hs : Handshake)
    (hidle : p.handshake = none)
    (hconn : env.connect_without_code p.config n = .ok (w, hs)) :
    Pylon.gen_code env p n =
      (.ok w.code, { p with handshake := some hs }, [.rendezvousConnectWithoutCode n]) ∧
    ExtAction.awaitHandshake ∉ (Pylon.gen_code env p n).2.2 := by
  constructor
  · simp only [Pylon.gen_code, hidle, hconn]
  · simp only [Pylon.gen_code, hidle, hconn]
    simp

/-- Witness for C6 at concrete inputs. -/
theorem genCode_stores_ticket_witness :
    Pylon.gen_code envOk pylonIdle 2 =
      (.ok "4-tester-code", { pylonIdle with handshake := some ⟨2⟩ },
        [.rendezvousConnectWithoutCode 2]) ∧
    ExtAction.awaitHandshake ∉ (Pylon.gen_code envOk pylonIdle 2).2.2 :=
  genCode_stores_ticket_returns_immediately envOk pylonIdle 2 ⟨"4-tester-code"⟩ ⟨2⟩ rfl rfl

/-- C3: with no pending handshake, send_file (on a path whose file name
resolves, a file that opens with readable metadata, and a relay url that
parses into a relay hint) fails with the no-active-handshake error; with no
pending transfer offer, receive_file (on a creatable destination) fails with
the no-active-transfer-request error. -/
theorem missing_slot_operations_error (env : Env) (p q : Pylon) (fs fr : RustPath)
    (os : OsStr) (nm : String) (f g : FileHandle) (sz : Nat) (u : Url) (hint : RelayHint)
    (hhs : p.handshake = none)
    (hname : fs.file_name = some os) (hstr : os.to_str = some nm)
    (hopen : env.open_file fs = .ok f) (hmeta : env.metadata_len f = .ok sz)
    (hparse : env.parse_url p.relay_url = .ok u) (hhint : env.from_urls u = .ok hint)
    (htr : q.transfer_request = none) (hcreate : env.create_file fr = .ok g) :
    (Pylon.send_file env p fs).1 = .error (.Error "There is currently no active handshake") ∧
    (Pylon.receive_file env q fr).1 =
      .error (.Error "There is currently no active transfer request") :=
  ⟨sendFile_pre_ok_no_handshake env p fs os nm f sz u hint
      hname hstr hopen hmeta hparse hhint hhs,
   receiveFile_create_ok_no_offer env q fr g hcreate htr⟩

/-- Witness for C3 at concrete inputs: an idle session. -/
theorem missing_slot_operations_error_witness :
    (Pylon.send_file envOk pylonIdle pathGood).1 =
      .error (.Error "There is currently no active handshake") ∧
    (Pylon.receive_file envOk pylonIdle pathGood).1 =
      .error (.Error "There is currently no active transfer request") :=
  missing_slot_operations_error envOk pylonIdle pylonIdle pathGood pathGood
    ⟨some "file.txt"⟩ "file.txt" ⟨2⟩ ⟨3⟩ 42 ⟨"ws://relay.example".length⟩
    ⟨"ws://relay.example".length⟩ rfl rfl rfl rfl rfl rfl rfl rfl rfl

/-- C5: on a session whose relay url fails to parse, send_file (on a path
whose file name resolves and a file that opens with readable metadata) and
request_file both return the UrlParseError, and neither attempts any network
action: the send_file trace filtered to network actions is empty (the
handshake is never awaited) and the request_file trace is empty outright (the
code is never used to connect). -/
theorem badRelayUrl_errors_before_network (env : Env) (p : Pylon) (fs : RustPath)
    (os : OsStr) (nm : String) (f : FileHandle) (sz : Nat) (e : UrlParseErr) (code : String)
    (hname : fs.file_name = some os) (hstr : os.to_str = some nm)
    (hopen : env.open_file fs = .ok f) (hmeta : env.metadata_len f = .ok sz)
    (hbad : env.parse_url p.relay_url = .error e) :
    (Pylon.send_file env p fs).1 = .error (.UrlParseError e) ∧
    (Pylon.send_file env p fs).2.2.filter ExtAction.isNetwork = [] ∧
    (Pylon.request_file env p code).1 = .error (.UrlParseError e) ∧
    (Pylon.request_file env p code).2.2 = [] := by
  refine ⟨?_, ?_, ?_, ?_⟩ <;>
    simp [Pylon.send_file, Pylon.request_file, hname, hstr, hopen, hmeta, hbad,
      ExtAction.isNetwork]

/-- Witness for C5 at concrete inputs: an environment whose url parser always
fails. -/
theorem badRelayUrl_errors_witness :
    (Pylon.send_file envBadUrl pylonPending pathGood).1 =
      .error (.UrlParseError ⟨"relative URL without a base"⟩) ∧
    (Pylon.send_file envBadUrl pylonPending pathGood).2.2.filter ExtAction.isNetwork = [] ∧
    (Pylon.request_file envBadUrl pylonPending "9-x").1 =
      .error (.UrlParseError ⟨"relative URL without a base"⟩) ∧
    (Pylon.request_file envBadUrl pylonPending "9-x").2.2 = [] :=
  badRelayUrl_errors_before_network envBadUrl pylonPending pathGood
    ⟨some "file.txt"⟩ "file.txt" ⟨2⟩ 42 ⟨"relative URL without a base"⟩ "9-x"
    rfl rfl rfl rfl rfl

/-- C9: with no pending transfer offer but a creatable destination,
receive_file still attempts (and here completes) the create of the
destination file, and only then fails with the no-active-transfer-request
error: the trace of the erroring call is exactly the create action. -/
theorem receiveFile_creates_destination_before_offer_check (env : Env) (q : Pylon)
    (fr : RustPath) (g : FileHandle)
    (hcreate : env.create_file fr = .ok g) (hq : q.transfer_request = none) :
    (Pylon.receive_file env q fr).1 =
      .error (.Error "There is currently no active transfer request") ∧
    (Pylon.receive_file env q fr).2.2 = [.fileCreate fr] := by
  constructor <;> simp [Pylon.receive_file, hcreate, hq]

/-- Witness for C9 at concrete inputs. -/
theorem receiveFile_creates_destination_witness :
    (Pylon.receive_file envOk pylonIdle pathGood).1 =
      .error (.Error "There is currently no active transfer request") ∧
    (Pylon.receive_file envOk pylonIdle pathGood).2.2 = [.fileCreate pathGood] :=
  receiveFile_creates_destination_before_offer_check envOk pylonIdle pathGood ⟨3⟩ rfl rfl

/-- C10: whenever request_file returns an error — from url parsing, relay-hint
building, code redemption, or awaiting the transfer offer — the session state
it returns is the input state unchanged; in particular the transfer_request
slot keeps its prior value, and it is assigned only on the success path. -/
theorem requestFile_failure_preserves_offer (env : Env) (p : Pylon) (code : String)
    (e : PylonError) (hfail : (Pylon.request_file env p code).1 = .error e) :
    (Pylon.request_file env p code).2.1.transfer_request = p.transfer_request ∧
    (Pylon.request_file env p code).2.1 = p := by
  cases hp : env.parse_url p.relay_url with
  | error e1 => simp [Pylon.request_file, hp]
  | ok u =>
    cases hu : env.from_urls u with
    | error e1 => simp [Pylon.request_file, hp, hu]
    | ok hint =>
      cases hc : env.connect_with_code p.config code with
      | error e1 => simp [Pylon.request_file, hp, hu, hc]
      | ok pair =>
        obtain ⟨w1, wh⟩ := pair
        cases ht : env.transfer_request_file wh hint p.abilities with
        | error e1 => simp [Pylon.request_file, hp, hu, hc, ht]
        | ok req =>
          exfalso
          simp [Pylon.request_file, hp, hu, hc, ht] at hfail

/-- Witness for C10 at concrete inputs: a failing url parse leaves a pending
offer in place. -/
theorem requestFile_failure_preserves_offer_witness :
    (Pylon.request_file envBadUrl pylonOffer "9-x").2.1.transfer_request =
      pylonOffer.transfer_request ∧
    (Pylon.request_file envBadUrl pylonOffer "9-x").2.1 = pylonOffer :=
  requestFile_failure_preserves_offer envBadUrl pylonOffer "9-x"
    (.UrlParseError ⟨"relative URL without a base"⟩) rfl

/-- C7: the serialized view of a Pylon has exactly the four identity and
configuration fields, in declaration order, under their camelCase names; it
never depends on (or mentions) the in-flight handshake and transfer_request
slots, which are skipped. -/
theorem pylon_serialized_view_fields (p : Pylon) (h : Option Handshake)
    (r : Option ReceiveRequest) :
    (serializePylon p).map Prod.fst = ["id", "relayUrl", "rendezvousUrl", "abilities"] ∧
    serializePylon { p with handshake := h, transfer_request := r } = serializePylon p ∧
    serializePylon p =
      [("id", .str p.id), ("relayUrl", .str p.relay_url),
       ("rendezvousUrl", .str p.rendezvous_url), ("abilities", .abilitiesVal p.abilities)] :=
  ⟨rfl, rfl, rfl⟩

/-- C8: every PylonError value, of every variant, serializes to a single
string, and that string is exactly its Display rendering; no variant is
unserializable or dropped. -/
theorem pylonError_serializes_to_display_string (e : PylonError) :
    (∃ s : String, e.serialize = SerdeValue.str s) ∧
    e.serialize = SerdeValue.str e.display :=
  ⟨⟨e.display, rfl⟩, rfl⟩

/-- C1 counterexample: a session with a pending handshake, given a path with
no file-name component, returns an error from send_file while its handshake
slot is still populated — the call returns with an error yet the slot is not
empty, so the claim that every send_file return leaves the slot None fails. -/
theorem sendFile_early_error_keeps_handshake_cex :
    (Pylon.send_file envOk pylonPending pathNoName).1 =
      .error (.Error "could not extract file name") ∧
    (Pylon.send_file envOk pylonPending pathNoName).2.1.handshake = some ⟨0⟩ ∧
    ¬ (Pylon.send_file envOk pylonPending pathNoName).2.1.handshake = none :=
  ⟨rfl, rfl, by decide⟩

/-- C1 amended: once a send_file call passes its validation and file phase
(file name resolves, file opens, metadata reads, relay url parses, relay hint
builds), the handshake slot is cleared whether the call returns Ok or any
error; once a receive_file call creates the destination, the transfer_request
slot is likewise cleared; an immediately repeated identical call then fails
with the corresponding no-active error. Calls that fail before that point
leave the slot as it was. -/
theorem slots_cleared_and_repeat_errors (env : Env) (p q : Pylon) (fs fr : RustPath)
    (os : OsStr) (nm : String) (f g : FileHandle) (sz : Nat) (u : Url) (hint : RelayHint)
    (hname : fs.file_name = some os) (hstr : os.to_str = some nm)
    (hopen : env.open_file fs = .ok f) (hmeta : env.metadata_len f = .ok sz)
    (hparse : env.parse_url p.relay_url = .ok u) (hhint : env.from_urls u = .ok hint)
    (hcreate : env.create_file fr = .ok g) :
    (Pylon.send_file env p fs).2.1.handshake = none ∧
    (Pylon.receive_file env q fr).2.1.transfer_request = none ∧
    (Pylon.send_file env (Pylon.send_file env p fs).2.1 fs).1 =
      .error (.Error "There is currently no active handshake") ∧
    (Pylon.receive_file env (Pylon.receive_file env q fr).2.1 fr).1 =
      .error (.Error "There is currently no active transfer request") := by
  have hs1 := sendFile_pre_ok_state env p fs os nm f sz u hint
    hname hstr hopen hmeta hparse hhint
  have hr1 := receiveFile_create_ok_state env q fr g hcreate
  refine ⟨by rw [hs1], by rw [hr1], ?_, ?_⟩
  · rw [hs1]
    exact sendFile_pre_ok_no_handshake env { p with handshake := none } fs os nm f sz u hint
      hname hstr hopen hmeta hparse hhint rfl
  · rw [hr1]
    exact receiveFile_create_ok_no_offer env { q with transfer_request := none } fr g
      hcreate rfl

/-- Witness for the amended C1 at concrete inputs: a pending-handshake session
sending, and a pending-offer session receiving. -/
theorem slots_cleared_and_repeat_errors_witness :
    (Pylon.send_file envOk pylonPending pathGood).2.1.handshake = none ∧
    (Pylon.receive_file envOk pylonOffer pathGood).2.1.transfer_request = none ∧
    (Pylon.send_file envOk (Pylon.send_file envOk pylonPending pathGood).2.1 pathGood).1 =
      .error (.Error "There is currently no active handshake") ∧
    (Pylon.receive_file envOk (Pylon.receive_file envOk pylonOffer pathGood).2.1 pathGood).1 =
      .error (.Error "There is currently no active transfer request") :=
  slots_cleared_and_repeat_errors envOk pylonPending pylonOffer pathGood pathGood
    ⟨some "file.txt"⟩ "file.txt" ⟨2⟩ ⟨3⟩ 42 ⟨"ws://relay.example".length⟩
    ⟨"ws://relay.example".length⟩ rfl rfl rfl rfl rfl rfl rfl

/-- C4 counterexample: on a session holding a pending transfer offer, a
successful request_file call is not rejected with a validation error; it
returns Ok and silently replaces the pending offer with the new one. -/
theorem requestFile_overwrites_pending_offer_cex :
    pylonOffer.transfer_request = some ⟨5⟩ ∧
    (Pylon.request_file envOk pylonOffer "7-code").1 = .ok () ∧
    (Pylon.request_file envOk pylonOffer "7-code").2.1.transfer_request = some ⟨7⟩ :=
  ⟨rfl, rfl, rfl⟩

/-- C4 amended: gen_code guards its handshake slot, but request_file performs
no exclusivity check on the transfer_request slot: even while an offer is
pending, a request_file call whose url parse, relay hint, code redemption and
offer request all succeed returns Ok and overwrites the slot with the newly
returned optional offer. The session still holds at most one offer only
because the slot is a single optional field. -/
theorem requestFile_no_exclusivity_guard (env : Env) (p : Pylon) (code : String)
    (r0 : ReceiveRequest) (u : Url) (hint : RelayHint) (w : WormholeWelcome) (wh : Wormhole)
    (req : Option ReceiveRequest)
    (_hpend : p.transfer_request = some r0)
    (hparse : env.parse_url p.relay_url = .ok u) (hhint : env.from_urls u = .ok hint)
    (hconn : env.connect_with_code p.config code = .ok (w, wh))
    (hreq : env.transfer_request_file wh hint p.abilities = .ok req) :
    (Pylon.request_file env p code).1 = .ok () ∧
    (Pylon.request_file env p code).2.1 = { p with transfer_request := req } := by
  constructor <;> simp [Pylon.request_file, hparse, hhint, hconn, hreq]

/-- Witness for the amended C4 at concrete inputs: the pending offer 5 is
replaced by the new offer 7. -/
theorem requestFile_no_exclusivity_guard_witness :
    (Pylon.request_file envOk pylonOffer "7-code").1 = .ok () ∧
    (Pylon.request_file envOk pylonOffer "7-code").2.1 =
      { pylonOffer with transfer_request := some ⟨7⟩ } :=
  requestFile_no_exclusivity_guard envOk pylonOffer "7-code" ⟨5⟩
    ⟨"ws://relay.example".length⟩ ⟨"ws://relay.example".length⟩ ⟨"w"⟩ ⟨1⟩ (some ⟨7⟩)
    rfl rfl rfl rfl rfl
